import Mathlib

/-!
Verification development for the diff-to-review pipeline in src/review.py.

The Python source is shallowly embedded: pure string building becomes Lean
string functions, exceptions become the Except monad, external collaborators
(the GitHub client, the model client, the parse_diff library) become explicit
function parameters, and the Python standard library pieces the code uses
(json.loads, fnmatch.fnmatch, int coercion, truthiness) are modelled as
executable Lean definitions faithful to their documented behaviour.
-/

/-- Python exception kinds that the embedded code can raise.  jsonError models
json.JSONDecodeError, apiError models any exception escaping the model call. -/
inductive PyErr where
  | valueError
  | typeError
  | keyError (k : String)
  | jsonError
  | apiError

/-- A JSON value as produced by json.loads.  Numbers are modelled as integers:
the replies the code consumes only carry integer line numbers, and the
float case never matters for the properties proved here.  Objects are
association lists in document order. -/
inductive Json where
  | null
  | bool (b : Bool)
  | num (n : Int)
  | str (s : String)
  | arr (elems : List Json)
  | obj (fields : List (String × Json))

/-- Python truthiness of a JSON value: None, False, 0, empty string, empty
list and empty dict are falsy, everything else truthy. -/
def pyTruthy : Json → Bool
  | Json.null => false
  | Json.bool b => b
  | Json.num n => n != 0
  | Json.str s => !s.data.isEmpty
  | Json.arr xs => !xs.isEmpty
  | Json.obj fs => !fs.isEmpty

/-- Python truthiness of an optional string, as used for the checks
on file.«to»: None and the empty string are falsy. -/
def pyTruthyStr : Option String → Bool
  | none => false
  | some s => !s.data.isEmpty

/-- Python subscription v[k] with a string key: a dict looks the key up and
raises KeyError when absent; subscripting any other JSON value with a string
key raises TypeError. -/
def getItem : Json → String → Except PyErr Json
  | Json.obj fields, k =>
    match List.lookup k fields with
    | some v => Except.ok v
    | none => Except.error (PyErr.keyError k)
  | _, _ => Except.error PyErr.typeError

/-- Python iteration over a JSON value: lists yield their elements, strings
yield one-character strings, dicts yield their keys; other values raise
TypeError. -/
def pyIter : Json → Except PyErr (List Json)
  | Json.arr xs => Except.ok xs
  | Json.str s => Except.ok (s.data.map (fun c => Json.str (String.mk [c])))
  | Json.obj fs => Except.ok (fs.map (fun kv => Json.str kv.fst))
  | _ => Except.error PyErr.typeError

/-- Whitespace characters stripped by the Python str.strip method (the ascii
ones; stripping of the rarer unicode whitespace is not modelled). -/
def isPySpace (c : Char) : Bool :=
  c == ' ' || c == '\t' || c == '\n' || c == '\r' || c == '\x0b' || c == '\x0c'

/-- Drop leading Python whitespace from a character list. -/
def dropPySpace : List Char → List Char
  | [] => []
  | c :: rest => if isPySpace c then dropPySpace rest else c :: rest

/-- Model of the Python str.strip method with no argument: remove leading and
trailing whitespace. -/
def pyStrip (s : String) : String :=
  String.mk (List.reverse (dropPySpace (List.reverse (dropPySpace s.data))))

/-- Splitting a character list at every comma, keeping empty parts, matching
the Python str.split method with an explicit separator: the empty input gives
one empty part. -/
def splitCommaChars : List Char → List String
  | [] => [""]
  | ',' :: rest => "" :: splitCommaChars rest
  | c :: rest =>
    match splitCommaChars rest with
    | [] => [String.mk [c]]
    | s :: ss => String.mk (c :: s.data) :: ss

/-- Model of the Python str.split method applied with the comma separator, as
used for the exclude pattern list (line 169 of review.py). -/
def pySplitComma (s : String) : List String :=
  splitCommaChars s.data

/-- Value of a list of decimal digit characters. -/
def digitsVal (cs : List Char) : Int :=
  cs.foldl (fun a c => a * 10 + (Int.ofNat (c.toNat - ('0').toNat))) 0

/-- The Python builtin int applied to a string: surrounding whitespace is
stripped, an optional sign is allowed, and the rest must be nonempty decimal
digits, otherwise ValueError.  (Digit-group underscores are not modelled.) -/
def pyIntOfStr (s : String) : Except PyErr Int :=
  let t := pyStrip s
  let core : (Int × List Char) :=
    match t.data with
    | '+' :: rest => (1, rest)
    | '-' :: rest => (-1, rest)
    | cs => (1, cs)
  if !core.snd.isEmpty && core.snd.all Char.isDigit then
    Except.ok (core.fst * digitsVal core.snd)
  else
    Except.error PyErr.valueError

/-- The Python builtin int applied to a JSON value: integers pass through,
booleans coerce to 0 or 1, strings are parsed, anything else raises
TypeError. -/
def pyInt : Json → Except PyErr Int
  | Json.num n => Except.ok n
  | Json.bool b => Except.ok (if b then 1 else 0)
  | Json.str s => pyIntOfStr s
  | _ => Except.error PyErr.typeError

/-- Drop leading JSON whitespace characters. -/
def skipWs : List Char → List Char
  | ' ' :: rest => skipWs rest
  | '\t' :: rest => skipWs rest
  | '\n' :: rest => skipWs rest
  | '\r' :: rest => skipWs rest
  | cs => cs

/-- Resolve a JSON escape character; the common single-character escapes are
covered, unicode escapes are not modelled (no reply in this development uses
them). -/
def unescape (c : Char) : Char :=
  match c with
  | 'n' => '\n'
  | 't' => '\t'
  | 'r' => '\r'
  | c => c

/-- Read a JSON string body after the opening quote; returns the decoded
string and the remaining input after the closing quote. -/
def parseStrLit : List Char → Except PyErr (String × List Char)
  | [] => Except.error PyErr.jsonError
  | '"' :: rest => Except.ok ("", rest)
  | '\\' :: c :: rest =>
    match parseStrLit rest with
    | Except.ok (s, r) => Except.ok (String.mk (unescape c :: s.data), r)
    | Except.error e => Except.error e
  | c :: rest =>
    match parseStrLit rest with
    | Except.ok (s, r) => Except.ok (String.mk (c :: s.data), r)
    | Except.error e => Except.error e

/-- Split the longest leading run of decimal digits off a character list. -/
def takeDigits : List Char → (List Char × List Char)
  | [] => ([], [])
  | c :: rest =>
    if c.isDigit then
      let p := takeDigits rest
      (c :: p.fst, p.snd)
    else ([], c :: rest)

/-- Read a JSON integer literal (optional minus sign, decimal digits).  A
fractional or exponent part is rejected: the modelled replies only carry
integers. -/
def parseIntLit (cs : List Char) : Except PyErr (Int × List Char) :=
  let core : (Int × List Char) :=
    match cs with
    | '-' :: rest => (-1, rest)
    | rest => (1, rest)
  let p := takeDigits core.snd
  if p.fst.isEmpty then Except.error PyErr.jsonError
  else
    match p.snd with
    | '.' :: _ => Except.error PyErr.jsonError
    | 'e' :: _ => Except.error PyErr.jsonError
    | 'E' :: _ => Except.error PyErr.jsonError
    | rest => Except.ok (core.fst * digitsVal p.fst, rest)

/-- Parsing mode: a single value, the elements of an array after its opening
bracket, or the fields of an object after its opening brace. -/
inductive PMode where
  | value
  | arrElems (acc : List Json)
  | objFields (acc : List (String × Json))

/-- Recursive-descent JSON reader, structurally recursive on a fuel counter so
that concrete inputs evaluate by definitional reduction.  Returns the parsed
value together with the unconsumed remainder of the input. -/
def parseJ : Nat → PMode → List Char → Except PyErr (Json × List Char)
  | 0, _, _ => Except.error PyErr.jsonError
  | fuel + 1, PMode.value, cs =>
    match skipWs cs with
    | 'n' :: 'u' :: 'l' :: 'l' :: rest => Except.ok (Json.null, rest)
    | 't' :: 'r' :: 'u' :: 'e' :: rest => Except.ok (Json.bool true, rest)
    | 'f' :: 'a' :: 'l' :: 's' :: 'e' :: rest => Except.ok (Json.bool false, rest)
    | '"' :: rest =>
      match parseStrLit rest with
      | Except.ok (s, r) => Except.ok (Json.str s, r)
      | Except.error e => Except.error e
    | '[' :: rest =>
      (match skipWs rest with
       | ']' :: rest2 => Except.ok (Json.arr [], rest2)
       | _ => parseJ fuel (PMode.arrElems []) rest)
    | '\x7b' :: rest =>
      (match skipWs rest with
       | '\x7d' :: rest2 => Except.ok (Json.obj [], rest2)
       | _ => parseJ fuel (PMode.objFields []) rest)
    | c :: rest =>
      if c.isDigit || c == '-' then
        match parseIntLit (c :: rest) with
        | Except.ok (n, r) => Except.ok (Json.num n, r)
        | Except.error e => Except.error e
      else Except.error PyErr.jsonError
    | [] => Except.error PyErr.jsonError
  | fuel + 1, PMode.arrElems acc, cs =>
    match parseJ fuel PMode.value cs with
    | Except.error e => Except.error e
    | Except.ok (v, rest) =>
      match skipWs rest with
      | ',' :: rest2 => parseJ fuel (PMode.arrElems (acc ++ [v])) rest2
      | ']' :: rest2 => Except.ok (Json.arr (acc ++ [v]), rest2)
      | _ => Except.error PyErr.jsonError
  | fuel + 1, PMode.objFields acc, cs =>
    match skipWs cs with
    | '"' :: rest =>
      (match parseStrLit rest with
       | Except.error e => Except.error e
       | Except.ok (k, rest1) =>
         match skipWs rest1 with
         | ':' :: rest2 =>
           (match parseJ fuel PMode.value rest2 with
            | Except.error e => Except.error e
            | Except.ok (v, rest3) =>
              match skipWs rest3 with
              | ',' :: rest4 => parseJ fuel (PMode.objFields (acc ++ [(k, v)])) rest4
              | '\x7d' :: rest4 => Except.ok (Json.obj (acc ++ [(k, v)]), rest4)
              | _ => Except.error PyErr.jsonError)
         | _ => Except.error PyErr.jsonError)
    | _ => Except.error PyErr.jsonError

/-- Model of the standard-library json.loads: parse one JSON document and
require that only whitespace remains. -/
def json_loads (s : String) : Except PyErr Json :=
  match parseJ (2 * s.data.length + 4) PMode.value s.data with
  | Except.error e => Except.error e
  | Except.ok (v, rest) =>
    if (skipWs rest).isEmpty then Except.ok v else Except.error PyErr.jsonError

/-- Split a character list at the first closing bracket of a glob character
class; returns the class body and the remainder after the bracket, or none
when the class is never closed. -/
def findClose : List Char → Option (List Char × List Char)
  | [] => none
  | ']' :: rest => some ([], rest)
  | c :: rest =>
    match findClose rest with
    | some (a, b) => some (c :: a, b)
    | none => none

/-- Decompose the input following an opening bracket into (negated, class
body, remainder).  As in the fnmatch module, a leading exclamation mark
negates the class and a closing bracket placed first is literal class
content; an unclosed class yields none (the bracket is then literal). -/
def splitClass (cs : List Char) : Option (Bool × List Char × List Char) :=
  match cs with
  | '!' :: ']' :: t =>
    match findClose t with
    | some (a, b) => some (true, ']' :: a, b)
    | none => none
  | '!' :: t =>
    match findClose t with
    | some (a, b) => some (true, a, b)
    | none => none
  | ']' :: t =>
    match findClose t with
    | some (a, b) => some (false, ']' :: a, b)
    | none => none
  | t =>
    match findClose t with
    | some (a, b) => some (false, a, b)
    | none => none

/-- Interpret a glob class body as character ranges: a dash between two
characters forms a range, any other character stands for itself. -/
def classItems : List Char → List (Char × Char)
  | [] => []
  | a :: '-' :: b :: rest => (a, b) :: classItems rest
  | a :: rest => (a, a) :: classItems rest

/-- Membership of a character in a (possibly negated) glob class. -/
def inClass (neg : Bool) (items : List (Char × Char)) (c : Char) : Bool :=
  let hit := items.any (fun p => p.fst ≤ c && c ≤ p.snd)
  if neg then !hit else hit

/-- Glob matching on character lists with a fuel counter (structural, so
concrete patterns evaluate by reduction): star matches any run of characters
including path separators, question mark one character, bracket classes one
character from the class; every other pattern character is literal. -/
def globMatchF : Nat → List Char → List Char → Bool
  | 0, _, _ => false
  | _ + 1, [], s => s.isEmpty
  | fuel + 1, '*' :: ps, [] => globMatchF fuel ps []
  | fuel + 1, '*' :: ps, c :: s =>
    globMatchF fuel ps (c :: s) || globMatchF fuel ('*' :: ps) s
  | _ + 1, '?' :: _, [] => false
  | fuel + 1, '?' :: ps, _ :: s => globMatchF fuel ps s
  | _ + 1, '[' :: _, [] => false
  | fuel + 1, '[' :: ps, c :: s =>
    (match splitClass ps with
     | some (neg, body, rest) => inClass neg (classItems body) c && globMatchF fuel rest s
     | none => (c == '[') && globMatchF fuel ps s)
  | _ + 1, _ :: _, [] => false
  | fuel + 1, p :: ps, c :: s => (p == c) && globMatchF fuel ps s

/-- Model of fnmatch.fnmatch(name, pattern) as imported under the alias
minimatch: shell-style glob matching of the whole name (case folding is the
identity on the posix platforms the action runs on).  The fuel bound covers
the worst-case recursion depth, in which every step consumes a pattern or a
name character. -/
def fnmatch (name : String) (pattern : String) : Bool :=
  globMatchF (pattern.data.length + name.data.length + 1) pattern.data name.data

/-- The path-filter predicate of main (lines 172 to 174 of review.py): a path
is excluded when it matches any of the configured glob patterns. -/
def is_excluded (to_path : String) (patterns : List String) : Bool :=
  patterns.any (fun pattern => fnmatch to_path pattern)

/-- One change line of a hunk as produced by the parse_diff library: ln is the
old-file line number, ln2 the new-file line number, either may be absent, and
content is the text of the line.  Only the fields review.py reads are
modelled. -/
structure DiffChange where
  ln : Option Int
  ln2 : Option Int
  content : String

/-- One hunk of a parsed diff: its raw content block and its change lines. -/
structure DiffChunk where
  content : String
  changes : List DiffChange

/-- One file of a parsed diff.  The destination path is optional because the
parse_diff library yields None for it on malformed blocks; review.py guards
for that with truthiness tests. -/
structure DiffFile where
  «to» : Option String
  chunks : List DiffChunk

/-- Pull-request details as built by get_pr_details (lines 17 to 23 of
review.py). -/
structure PRDetails where
  owner : String
  repo : String
  pull_number : Int
  title : String
  description : String

/-- One review comment dictionary as built by create_comment: body is the raw
JSON value found under reviewComment, path the destination path of the file,
line the coerced line number. -/
structure ReviewComment where
  body : Json
  path : Option String
  line : Int

/-- Python string interpolation of an optional integer: None renders as the
four letters None. -/
def pyShowOptInt : Option Int → String
  | none => "None"
  | some n => toString n

/-- Python string interpolation of an optional string: None renders as the
four letters None. -/
def pyShowOptStr : Option String → String
  | none => "None"
  | some s => s

/-- Python truthiness of an optional integer, for the expression
c.ln if c.ln else c.ln2 in create_prompt: None and 0 are falsy. -/
def pyTruthyInt : Option Int → Bool
  | none => false
  | some n => n != 0

/-- The per-change line rendered inside the prompt (line 87 of review.py):
the old line number when truthy, otherwise the new line number, then a space
and the line content; the pieces are joined with no separator. -/
def renderChange (c : DiffChange) : String :=
  pyShowOptInt (if pyTruthyInt c.ln then c.ln else c.ln2) ++ " " ++ c.content

/-- create_prompt (lines 70 to 89 of review.py): the fixed instruction text,
the target path, title and description of the pull request, and the raw hunk
content followed by the rendered change lines. -/
def create_prompt (file : DiffFile) (chunk : DiffChunk) (pr_details : PRDetails) : String :=
  "Your task is to review pull requests. Instructions:\n" ++
  "- Provide the response in the following JSON format: \x7b\x27reviews\x27: [\x7b\"lineNumber\": <line_number>, \"reviewComment\": \"<review comment>\"\x7d]\x7d\n" ++
  "- Do not give positive comments or compliments.\n" ++
  "- Provide comments and suggestions ONLY if there is something to improve, otherwise \"reviews\" should be an empty array.\n" ++
  "- Write the comment in GitHub Markdown format.\n" ++
  "- Use the given description only for the overall context and only comment the code.\n" ++
  "- IMPORTANT: NEVER suggest adding comments to the code.\n" ++
  "Review the following code diff in the file \"" ++ pyShowOptStr file.«to» ++
  "\" and take the pull request title and description into account when writing the response.\n" ++
  "Pull request title: " ++ pr_details.title ++ "\n" ++
  "Pull request description:\n---\n" ++ pr_details.description ++ "\n---\n" ++
  "Git diff to review:\n```diff\n" ++ chunk.content ++ "\n" ++
  String.join (chunk.changes.map renderChange) ++ "\n```\n"

/-- The expression res = content.strip() or two braces (line 113 of
review.py): the stripped reply body, replaced by an empty JSON object when it
is empty. -/
def stripOrEmptyObj (content : String) : String :=
  if (pyStrip content).data.isEmpty then "\x7b\x7d" else pyStrip content

/-- get_ai_response (lines 92 to 118 of review.py).  The ai argument models
the model call openai_api.create_chat_completion together with the extraction
of the first choice content: it returns the reply body or the exception the
call raised.  Every exception inside the body, including a failed json parse
and a missing reviews key, is caught and reported as None. -/
def get_ai_response (ai : String → Except PyErr String) (prompt : String) : Option Json :=
  match ai prompt with
  | Except.error _ => none
  | Except.ok content =>
    match json_loads (stripOrEmptyObj content) with
    | Except.error _ => none
    | Except.ok j =>
      match getItem j "reviews" with
      | Except.error _ => none
      | Except.ok r => some r

/-- The list comprehension inside create_comment, one step per reviews item:
when file.«to» is truthy, the reviewComment value is read, then the lineNumber
value is read and coerced with int; the first exception aborts the whole
comprehension.  When file.«to» is falsy the item is skipped. -/
def comment_items (file : DiffFile) : List Json → Except PyErr (List ReviewComment)
  | [] => Except.ok []
  | item :: rest =>
    if pyTruthyStr file.«to» then
      match getItem item "reviewComment" with
      | Except.error e => Except.error e
      | Except.ok body =>
        match getItem item "lineNumber" with
        | Except.error e => Except.error e
        | Except.ok lnv =>
          match pyInt lnv with
          | Except.error e => Except.error e
          | Except.ok n =>
            match comment_items file rest with
            | Except.error e => Except.error e
            | Except.ok cs => Except.ok (⟨body, file.«to», n⟩ :: cs)
    else comment_items file rest

/-- create_comment (lines 121 to 130 of review.py): iterate the reviews value
(a TypeError when it is not iterable) and build one comment dictionary per
item via the comprehension steps. -/
def create_comment (file : DiffFile) (chunk : DiffChunk) (ai_responses : Json) :
    Except PyErr (List ReviewComment) :=
  match pyIter ai_responses with
  | Except.error e => Except.error e
  | Except.ok items => comment_items file items

/-- The inner loop of analyze_code over the chunks of one file (lines 58 to
65 of review.py).  The second component of the result is an observational log
of the prompts passed to get_ai_response at line 60, recorded to state which
chunks were ever prompted; the Python code produces only the comments. -/
def analyze_code_chunks (ai : String → Except PyErr String) (file : DiffFile)
    (pr_details : PRDetails) : List DiffChunk → Except PyErr (List ReviewComment × List String)
  | [] => Except.ok ([], [])
  | chunk :: rest =>
    let prompt := create_prompt file chunk pr_details
    match get_ai_response ai prompt with
    | none =>
      match analyze_code_chunks ai file pr_details rest with
      | Except.error e => Except.error e
      | Except.ok (cs, ps) => Except.ok (cs, prompt :: ps)
    | some ai_response =>
      if pyTruthy ai_response then
        match create_comment file chunk ai_response with
        | Except.error e => Except.error e
        | Except.ok new_comments =>
          match analyze_code_chunks ai file pr_details rest with
          | Except.error e => Except.error e
          | Except.ok (cs, ps) => Except.ok (new_comments ++ cs, prompt :: ps)
      else
        match analyze_code_chunks ai file pr_details rest with
        | Except.error e => Except.error e
        | Except.ok (cs, ps) => Except.ok (cs, prompt :: ps)

/-- analyze_code (lines 51 to 67 of review.py): skip files whose destination
path equals the deletion sentinel, process the chunks of every other file in
order, and concatenate the gathered comments (and prompt logs) in that
order.  An exception escaping create_comment aborts the whole run, exactly as
in the source, where no handler surrounds the loop. -/
def analyze_code (ai : String → Except PyErr String) (parsed_diff : List DiffFile)
    (pr_details : PRDetails) : Except PyErr (List ReviewComment × List String) :=
  match parsed_diff with
  | [] => Except.ok ([], [])
  | file :: rest =>
    if file.«to» = some "/dev/null" then analyze_code ai rest pr_details
    else
      match analyze_code_chunks ai file pr_details file.chunks with
      | Except.error e => Except.error e
      | Except.ok (cs, ps) =>
        match analyze_code ai rest pr_details with
        | Except.error e => Except.error e
        | Except.ok (cs2, ps2) => Except.ok (cs ++ cs2, ps ++ ps2)

/-- Observable outcome of one run of main: whether parse_diff was reached,
the comments gathered, the prompts issued, and the argument lists of the
calls to create_review_comment (the submission collaborator). -/
structure RunOutcome where
  parse_called : Bool
  comments : List ReviewComment
  prompts : List String
  submissions : List (List ReviewComment)

/-- main (lines 141 to 179 of review.py).  The external inputs are explicit:
action is the trigger action from the event payload, diff the diff text the
taken branch obtains (lines 148 to 157, external calls), parse_diff the
imported diff-parsing library, ai the model collaborator, exclude_env the
value of the exclude environment variable (default empty), pr_details the
fetched pull-request details.  Unsupported actions and an empty diff return
before parsing; otherwise the parsed files are filtered with is_excluded on
the stripped comma-separated patterns, analyzed, and the comments submitted
only when the accumulator is nonempty. -/
def main_run (action : String) (diff : String) (parse_diff : String → List DiffFile)
    (ai : String → Except PyErr String) (exclude_env : String) (pr_details : PRDetails) :
    Except PyErr RunOutcome :=
  if action = "opened" ∨ action = "synchronize" then
    if diff.data.isEmpty then Except.ok ⟨false, [], [], []⟩
    else
      let parsed_diff := parse_diff diff
      let exclude_patterns := (pySplitComma exclude_env).map pyStrip
      let filtered_diff :=
        parsed_diff.filter (fun file => !is_excluded (file.«to».getD "") exclude_patterns)
      match analyze_code ai filtered_diff pr_details with
      | Except.error e => Except.error e
      | Except.ok (comments, prompts) =>
        Except.ok ⟨true, comments, prompts, if comments.isEmpty then [] else [comments]⟩
  else Except.ok ⟨false, [], [], []⟩

/-- A reviews item is well formed when the reviewComment lookup, the
lineNumber lookup and the integer coercion all succeed on it. -/
def itemOk (item : Json) : Bool :=
  match getItem item "reviewComment" with
  | Except.error _ => false
  | Except.ok _ =>
    match getItem item "lineNumber" with
    | Except.error _ => false
    | Except.ok lnv =>
      match pyInt lnv with
      | Except.error _ => false
      | Except.ok _ => true

/-- The empty glob pattern matches exactly the empty name. -/
theorem fnmatch_empty_pattern (s : String) : fnmatch s "" = s.data.isEmpty := by
  cases s
  rfl

/-- A string whose character list is empty is the empty string. -/
theorem eq_empty_of_data_isEmpty (p : String) (h : p.data.isEmpty = true) : p = "" := by
  cases p with
  | mk d =>
    cases d with
    | nil => rfl
    | cons c cs => simp at h

/-- A nonempty name never matches the empty glob pattern. -/
theorem fnmatch_blank (path : String) (h : path ≠ "") : fnmatch path "" = false := by
  rw [fnmatch_empty_pattern]
  cases path with
  | mk d =>
    cases d with
    | nil => exact absurd rfl h
    | cons c cs => rfl

/-- A well-formed item yields witnesses for its three successful lookups. -/
theorem itemOk_spec (item : Json) (h : itemOk item = true) :
    ∃ b lv n, getItem item "reviewComment" = Except.ok b
      ∧ getItem item "lineNumber" = Except.ok lv ∧ pyInt lv = Except.ok n := by
  unfold itemOk at h
  cases h1 : getItem item "reviewComment" with
  | error e1 => simp [h1] at h
  | ok b =>
    simp only [h1] at h
    cases h2 : getItem item "lineNumber" with
    | error e2 => simp [h2] at h
    | ok lv =>
      simp only [h2] at h
      cases h3 : pyInt lv with
      | error e3 => simp [h3] at h
      | ok n => exact ⟨b, lv, n, rfl, rfl, h3⟩

/-- An exception raised while mapping later reviews items passes unchanged
through earlier well-formed items of the comprehension. -/
theorem comment_items_error_through (file : DiffFile) (pre rest : List Json) (e : PyErr)
    (hto : pyTruthyStr file.«to» = true)
    (hpre : ∀ it ∈ pre, itemOk it = true)
    (h : comment_items file rest = Except.error e) :
    comment_items file (pre ++ rest) = Except.error e := by
  induction pre with
  | nil => simpa using h
  | cons it pre ih =>
    obtain ⟨b, lv, n, hb, hlv, hn⟩ := itemOk_spec it (hpre it (List.mem_cons_self it pre))
    have ih2 := ih (fun x hx => hpre x (List.mem_cons_of_mem _ hx))
    simp [comment_items, hto, hb, hlv, hn, ih2]

/-- C9: create_prompt is a pure, deterministic function of its three inputs:
two calls with equal file, chunk and pull-request context return the
identical prompt string, with no dependence on hidden state. -/
theorem create_prompt_deterministic (file file2 : DiffFile) (chunk chunk2 : DiffChunk)
    (pr_details pr_details2 : PRDetails)
    (hf : file = file2) (hc : chunk = chunk2) (hp : pr_details = pr_details2) :
    create_prompt file chunk pr_details = create_prompt file2 chunk2 pr_details2 := by
  rw [hf, hc, hp]

theorem create_prompt_deterministic_witness :
    create_prompt ⟨some "a.py", []⟩ ⟨"@@ -1 +1 @@", []⟩ ⟨"o", "r", 1, "t", "d"⟩
      = create_prompt ⟨some "a.py", []⟩ ⟨"@@ -1 +1 @@", []⟩ ⟨"o", "r", 1, "t", "d"⟩ :=
  create_prompt_deterministic _ _ _ _ _ _ rfl rfl rfl

/-- C5: a parsed file whose destination path equals the deletion sentinel is
skipped entirely by analyze_code: the run over the remaining files is
unchanged, so no prompt is built for any of its chunks and it contributes no
comments, whatever the diff content or the model replies. -/
theorem analyze_code_skips_dev_null (ai : String → Except PyErr String) (file : DiffFile)
    (rest : List DiffFile) (pr_details : PRDetails) (h : file.«to» = some "/dev/null") :
    analyze_code ai (file :: rest) pr_details = analyze_code ai rest pr_details := by
  simp [analyze_code, h]

theorem analyze_code_skips_dev_null_witness :
    analyze_code (fun _ => Except.ok "\x7b\"reviews\": [\x7b\"lineNumber\": 1, \"reviewComment\": \"x\"\x7d]\x7d")
        [⟨some "/dev/null", [⟨"@@ -1 +0,0 @@", []⟩]⟩] ⟨"o", "r", 1, "t", "d"⟩
      = analyze_code (fun _ => Except.ok "\x7b\"reviews\": [\x7b\"lineNumber\": 1, \"reviewComment\": \"x\"\x7d]\x7d")
        [] ⟨"o", "r", 1, "t", "d"⟩ :=
  analyze_code_skips_dev_null _ _ _ _ rfl

/-- C6: for an empty diff text the run returns before parsing, prompting or
submitting: parse_diff is never called, no prompt is issued, the comment
sequence is empty and the submission collaborator is never invoked. -/
theorem main_run_empty_diff (action : String) (parse_diff : String → List DiffFile)
    (ai : String → Except PyErr String) (exclude_env : String) (pr_details : PRDetails) :
    main_run action "" parse_diff ai exclude_env pr_details
      = Except.ok ⟨false, [], [], []⟩ := by
  unfold main_run
  by_cases h : action = "opened" ∨ action = "synchronize"
  · rw [if_pos h]
    rfl
  · rw [if_neg h]

/-- C1 amended: a reviews item whose lineNumber is non-numeric makes the
integer coercion raise ValueError inside the list comprehension, which aborts
the mapping of the entire reply: no comment is produced for any item of that
reply, the well-formed items included, and the exception propagates out of
create_comment (and, the caller having no handler, out of analyze_code). -/
theorem create_comment_nonnumeric_aborts_reply (file : DiffFile) (chunk : DiffChunk)
    (pre post : List Json) (bad body lnv : Json)
    (hto : pyTruthyStr file.«to» = true)
    (hpre : ∀ it ∈ pre, itemOk it = true)
    (hb : getItem bad "reviewComment" = Except.ok body)
    (hlv : getItem bad "lineNumber" = Except.ok lnv)
    (hbad : pyInt lnv = Except.error PyErr.valueError) :
    create_comment file chunk (Json.arr (pre ++ bad :: post))
      = Except.error PyErr.valueError := by
  have hstep : comment_items file (bad :: post) = Except.error PyErr.valueError := by
    simp [comment_items, hto, hb, hlv, hbad]
  have hall := comment_items_error_through file pre (bad :: post) PyErr.valueError hto hpre hstep
  simpa [create_comment, pyIter] using hall

theorem create_comment_nonnumeric_aborts_reply_witness :
    create_comment ⟨some "a.py", []⟩ ⟨"@@ -1,2 +1,2 @@", []⟩
        (Json.arr ([Json.obj [("lineNumber", Json.str "5"), ("reviewComment", Json.str "avoid X")]]
          ++ Json.obj [("lineNumber", Json.str "abc"), ("reviewComment", Json.str "bad")] :: []))
      = Except.error PyErr.valueError :=
  create_comment_nonnumeric_aborts_reply _ _ _ _ _ _ _ rfl
    (fun it hit => by rw [List.mem_singleton] at hit; rw [hit]; rfl)
    rfl rfl rfl

/-- C1 fails on the code: a reply holding one well-formed item and one item
with a non-numeric lineNumber maps to a ValueError for the whole reply, not
to one comment and one skipped item, and the same error escapes analyze_code
rather than being contained in the per-chunk mapping. -/
theorem create_comment_nonnumeric_counterexample :
    create_comment ⟨some "a.py", []⟩ ⟨"@@ -1,2 +1,2 @@", []⟩
        (Json.arr [Json.obj [("lineNumber", Json.str "5"), ("reviewComment", Json.str "avoid X")],
          Json.obj [("lineNumber", Json.str "abc"), ("reviewComment", Json.str "bad")]])
      = Except.error PyErr.valueError
    ∧ analyze_code
        (fun _ => Except.ok "\x7b\"reviews\": [\x7b\"lineNumber\": \"5\", \"reviewComment\": \"avoid X\"\x7d, \x7b\"lineNumber\": \"abc\", \"reviewComment\": \"bad\"\x7d]\x7d")
        [⟨some "a.py", [⟨"@@ -1,2 +1,2 @@", []⟩]⟩] ⟨"o", "r", 1, "t", "d"⟩
      = Except.error PyErr.valueError :=
  ⟨rfl, rfl⟩

/-- C3 amended: create_comment returns zero comments when the destination
path is falsy, that is None or the empty string; it does not re-check the
deletion sentinel, so only the skip in analyze_code keeps comments for
deleted files from being constructed. -/
theorem create_comment_falsy_path (file : DiffFile) (chunk : DiffChunk) (items : List Json)
    (h : file.«to» = none ∨ file.«to» = some "") :
    create_comment file chunk (Json.arr items) = Except.ok [] := by
  have hto : pyTruthyStr file.«to» = false := by
    rcases h with h | h <;> rw [h] <;> rfl
  have hitems : comment_items file items = Except.ok [] := by
    induction items with
    | nil => rfl
    | cons it rest ih => simpa [comment_items, hto] using ih
  simpa [create_comment, pyIter] using hitems

theorem create_comment_falsy_path_witness :
    create_comment ⟨none, []⟩ ⟨"@@ -1,2 +1,2 @@", []⟩
        (Json.arr [Json.obj [("lineNumber", Json.str "5"), ("reviewComment", Json.str "avoid X")]])
      = Except.ok [] :=
  create_comment_falsy_path _ _ _ (Or.inl rfl)

/-- C3 fails on the code for the sentinel case: a file whose destination path
is the deletion sentinel is truthy, so create_comment happily constructs a
comment anchored at /dev/null when handed review items for it. -/
theorem create_comment_dev_null_counterexample :
    create_comment ⟨some "/dev/null", []⟩ ⟨"@@ -1,2 +1,2 @@", []⟩
        (Json.arr [Json.obj [("lineNumber", Json.str "5"), ("reviewComment", Json.str "avoid X")]])
      = Except.ok [⟨Json.str "avoid X", some "/dev/null", 5⟩] :=
  rfl

/-- C2 amended: every failure that occurs inside get_ai_response is soft: a
model call that raises, a reply body that does not parse as JSON, or a parsed
reply without a reviews key all make get_ai_response report None, and a chunk
whose reply reports None contributes zero comments while the loop continues
unchanged over the remaining chunks.  (A reply that is valid JSON whose
truthy reviews value has the wrong shape is not covered: it raises inside
create_comment, outside the handler.) -/
theorem get_ai_response_soft_failure :
    (∀ (ai : String → Except PyErr String) (prompt : String),
      ((∃ e, ai prompt = Except.error e)
        ∨ (∃ content e, ai prompt = Except.ok content
            ∧ json_loads (stripOrEmptyObj content) = Except.error e)
        ∨ (∃ content j e, ai prompt = Except.ok content
            ∧ json_loads (stripOrEmptyObj content) = Except.ok j
            ∧ getItem j "reviews" = Except.error e))
      → get_ai_response ai prompt = none)
    ∧ (∀ (ai : String → Except PyErr String) (file : DiffFile) (pr_details : PRDetails)
        (chunk : DiffChunk) (rest : List DiffChunk),
        get_ai_response ai (create_prompt file chunk pr_details) = none
        → analyze_code_chunks ai file pr_details (chunk :: rest)
          = Except.map (fun r => (r.fst, create_prompt file chunk pr_details :: r.snd))
              (analyze_code_chunks ai file pr_details rest)) := by
  constructor
  · intro ai prompt h
    rcases h with ⟨e, h1⟩ | ⟨c, e, h1, h2⟩ | ⟨c, j, e, h1, h2, h3⟩
    · simp [get_ai_response, h1]
    · simp [get_ai_response, h1, h2]
    · simp [get_ai_response, h1, h2, h3]
  · intro ai file pr_details chunk rest h
    simp only [analyze_code_chunks, h]
    cases hr : analyze_code_chunks ai file pr_details rest with
    | error e => rfl
    | ok r => cases r with | mk cs ps => rfl

theorem get_ai_response_soft_failure_witness :
    get_ai_response (fun _ => Except.ok "I cannot review this diff.")
        (create_prompt ⟨some "a.py", []⟩ ⟨"@@ -1 +1 @@", []⟩ ⟨"o", "r", 1, "t", "d"⟩)
      = none
    ∧ analyze_code_chunks (fun _ => Except.ok "I cannot review this diff.")
        ⟨some "a.py", []⟩ ⟨"o", "r", 1, "t", "d"⟩ [⟨"@@ -1 +1 @@", []⟩]
      = Except.map
          (fun r => (r.fst,
            create_prompt ⟨some "a.py", []⟩ ⟨"@@ -1 +1 @@", []⟩ ⟨"o", "r", 1, "t", "d"⟩ :: r.snd))
          (analyze_code_chunks (fun _ => Except.ok "I cannot review this diff.")
            ⟨some "a.py", []⟩ ⟨"o", "r", 1, "t", "d"⟩ []) :=
  ⟨get_ai_response_soft_failure.1 _ _
      (Or.inr (Or.inl ⟨"I cannot review this diff.", PyErr.jsonError, rfl, rfl⟩)),
    get_ai_response_soft_failure.2 _ _ _ _ _
      (get_ai_response_soft_failure.1 _ _
        (Or.inr (Or.inl ⟨"I cannot review this diff.", PyErr.jsonError, rfl, rfl⟩)))⟩

/-- C2 fails on the code as stated: a reply that is valid JSON but not in the
fixed schema, here a reviews value that is a bare number, is truthy and not
iterable, so create_comment raises TypeError and the exception escapes
analyze_code instead of the chunk yielding zero comments. -/
theorem analyze_code_bad_schema_counterexample :
    analyze_code (fun _ => Except.ok "\x7b\"reviews\": 5\x7d")
        [⟨some "b.py", [⟨"@@ -1 +1 @@", []⟩]⟩] ⟨"o", "r", 1, "t", "d"⟩
      = Except.error PyErr.typeError :=
  rfl

/-- C4 amended: blank patterns are not filtered out before matching; instead
an empty pattern matches exactly the empty path.  Hence for every nonempty
path blank patterns have no effect, the filter result equals the result with
all empty patterns removed, and a lone empty pattern excludes no file with a
nonempty path; but a file whose path is empty is excluded by a blank
pattern. -/
theorem is_excluded_blank_patterns :
    (∀ (path : String) (patterns : List String), path ≠ "" →
      is_excluded path patterns
        = is_excluded path (patterns.filter (fun q => !q.data.isEmpty)))
    ∧ is_excluded "x.ts" [""] = false := by
  refine ⟨?_, by decide⟩
  intro path patterns hpath
  induction patterns with
  | nil => rfl
  | cons p ps ih =>
    have hL : is_excluded path (p :: ps) = (fnmatch path p || is_excluded path ps) := rfl
    by_cases hp : p.data.isEmpty = true
    · have hp0 : p = "" := eq_empty_of_data_isEmpty p hp
      subst hp0
      have hR : (("" : String) :: ps).filter (fun q => !q.data.isEmpty)
          = ps.filter (fun q => !q.data.isEmpty) := by
        rw [List.filter_cons]
        simp
      rw [hL, hR, fnmatch_blank path hpath, Bool.false_or, ih]
    · have hR : (p :: ps).filter (fun q => !q.data.isEmpty)
          = p :: ps.filter (fun q => !q.data.isEmpty) := by
        rw [List.filter_cons]
        simp [hp]
      have hL2 : is_excluded path (p :: ps.filter (fun q => !q.data.isEmpty))
          = (fnmatch path p || is_excluded path (ps.filter (fun q => !q.data.isEmpty))) := rfl
      rw [hL, hR, hL2, ih]

theorem is_excluded_blank_patterns_witness :
    (("x.ts" : String) ≠ "")
    ∧ is_excluded "x.ts" [""]
      = is_excluded "x.ts" (List.filter (fun q => !q.data.isEmpty) [""]) :=
  ⟨by decide, is_excluded_blank_patterns.1 "x.ts" [""] (by decide)⟩

/-- C4 fails on the code as a universal statement: the empty path is matched
by the blank pattern, so removing blank patterns changes the result for a
file whose destination path is empty or missing. -/
theorem is_excluded_blank_pattern_counterexample :
    is_excluded "" [""] = true
    ∧ is_excluded "" (List.filter (fun q => !q.data.isEmpty) [""]) = false :=
  ⟨rfl, rfl⟩

/-- C7: the submission collaborator is invoked at most once per run, only
when the gathered comment sequence is nonempty, and an empty accumulator ends
the run with no submission at all. -/
theorem main_run_submits_at_most_once (action diff : String)
    (parse_diff : String → List DiffFile) (ai : String → Except PyErr String)
    (exclude_env : String) (pr_details : PRDetails) (o : RunOutcome)
    (h : main_run action diff parse_diff ai exclude_env pr_details = Except.ok o) :
    o.submissions.length ≤ 1
    ∧ (o.comments.isEmpty = true → o.submissions = [])
    ∧ (o.submissions ≠ [] → o.submissions = [o.comments] ∧ o.comments ≠ []) := by
  unfold main_run at h
  split at h
  · split at h
    · injection h with h2
      subst h2
      exact ⟨by simp, fun _ => rfl, fun hc => absurd rfl hc⟩
    · simp only [] at h
      split at h
      · exact absurd h (by simp)
      · injection h with h2
        subst h2
        rename_i comments prompts heq
        by_cases hc : comments.isEmpty = true
        · refine ⟨?_, fun _ => ?_, fun hs => ?_⟩
          · simp [hc]
          · simp [hc]
          · exact absurd (by simp [hc]) hs
        · refine ⟨?_, fun hcc => absurd hcc hc, fun _ => ⟨?_, ?_⟩⟩
          · simp [hc]
          · simp [hc]
          · intro heq2
            have h3 : comments = [] := heq2
            exact hc (by rw [h3]; rfl)
  · injection h with h2
    subst h2
    exact ⟨by simp, fun _ => rfl, fun hc => absurd rfl hc⟩

theorem main_run_submits_at_most_once_witness :
    (([] : List (List ReviewComment)).length ≤ 1
    ∧ (([] : List ReviewComment).isEmpty = true → ([] : List (List ReviewComment)) = [])
    ∧ (([] : List (List ReviewComment)) ≠ []
        → ([] : List (List ReviewComment)) = [([] : List ReviewComment)]
          ∧ ([] : List ReviewComment) ≠ [])) :=
  main_run_submits_at_most_once "closed" "d" (fun _ => []) (fun _ => Except.error PyErr.apiError)
    "" ⟨"o", "r", 1, "t", "d"⟩ ⟨false, [], [], []⟩ rfl

/-- C8: a file is excluded exactly when its destination path matches at least
one configured pattern under the shell-style glob semantics of the fnmatch
model, and the two concrete example pairs of the specification evaluate as
stated. -/
theorem is_excluded_iff_matches :
    (∀ (to_path : String) (patterns : List String),
      is_excluded to_path patterns = true
        ↔ ∃ p, p ∈ patterns ∧ fnmatch to_path p = true)
    ∧ is_excluded "src/a.ts" ["*.md", "dist/*"] = false
    ∧ is_excluded "dist/bundle.js" ["*.md", "dist/*"] = true := by
  refine ⟨?_, by decide, by decide⟩
  intro to_path patterns
  simp [is_excluded, List.any_eq_true]

/-- C10: with the exclusion configuration unset the pattern list is the lone
empty string, and the filter of main then drops exactly the parsed files
whose destination path is None or empty, because the path defaults to the
empty string before matching and the empty pattern matches exactly the empty
string; every file with a nonempty destination path is kept. -/
theorem unset_exclude_drops_empty_paths :
    ((pySplitComma "").map pyStrip = [""])
    ∧ (∀ to_path : Option String,
        is_excluded (to_path.getD "") [""] = (to_path.getD "").data.isEmpty)
    ∧ (∀ files : List DiffFile,
        files.filter (fun file => !is_excluded (file.«to».getD "") [""])
          = files.filter (fun file => !(file.«to».getD "").data.isEmpty)) := by
  have h2 : ∀ path : String, is_excluded path [""] = path.data.isEmpty := by
    intro path
    have : is_excluded path [""] = (fnmatch path "" || false) := rfl
    rw [this, Bool.or_false, fnmatch_empty_pattern]
  refine ⟨rfl, fun to_path => h2 _, fun files => ?_⟩
  apply List.filter_congr
  intro f _
  rw [h2]
